import Mathlib

/-!
Verification of the byte-level codecs of the ztex package: primitive
little-endian decoders, the flash sector-size decoder, the descriptor and
device-configuration codecs, the capability bitfield model, the
capability-gated command layer, and the exact binary-prefix formatter.
Bytes are modelled as `Nat` (with `< 256` bounds stated where a result
depends on them); machine-integer truncation is modelled with explicit
`% 2 ^ w`.
-/

namespace Ztex

/-- Little-endian 16-bit decoder, from `bytesToUint16`:
`(uint16(b[0]) << 0) | (uint16(b[1]) << 8)`. -/
def bytesToUint16 (b : Nat × Nat) : Nat :=
  (b.1 <<< 0) ||| (b.2 <<< 8)

/-- Little-endian 32-bit decoder, from `bytesToUint32`:
`(uint32(b[0]) << 0) | (uint32(b[1]) << 8) | (uint32(b[2]) << 16) | (uint32(b[3]) << 24)`. -/
def bytesToUint32 (b : Nat × Nat × Nat × Nat) : Nat :=
  (b.1 <<< 0) ||| (b.2.1 <<< 8) ||| (b.2.2.1 <<< 16) ||| (b.2.2.2 <<< 24)

/-- The `FlashSector` is a 2-byte field (`[2]uint8`). -/
abbrev FlashSector := Nat × Nat

/-- The `uint64` variant of `FlashSector.Number`: `z := uint64(bytesToUint16(f))`,
and if `z & 0x8000 != 0` then `z = 1 << (z & 0x7fff)` in 64-bit arithmetic. -/
def FlashSector.Number64 (f : FlashSector) : Nat :=
  if bytesToUint16 f &&& 0x8000 ≠ 0 then (1 <<< (bytesToUint16 f &&& 0x7fff)) % 2 ^ 64
  else bytesToUint16 f

/-- The `uint16` variant of `FlashSector.Number`: `z := bytesToUint16(f)`,
and if `z & 0x8000 != 0` then `z = 1 << (z & 0x7fff)` in 16-bit arithmetic. -/
def FlashSector.Number16 (f : FlashSector) : Nat :=
  if bytesToUint16 f &&& 0x8000 ≠ 0 then (1 <<< (bytesToUint16 f &&& 0x7fff)) % 2 ^ 16
  else bytesToUint16 f

/-- The `FPGAConfigured` is a raw status byte. -/
abbrev FPGAConfigured := Nat

/-- First historical variant of `FPGAConfigured.Bool`: `return f == 0`. -/
def FPGAConfigured.BoolV1 (f : FPGAConfigured) : Bool := f == 0

/-- Second historical variant of `FPGAConfigured.Bool`: `return f == 1`. -/
def FPGAConfigured.BoolV2 (f : FPGAConfigured) : Bool := f == 1

/-- The `FPGATransferred` is a 4-byte field (`[4]uint8`). -/
abbrev FPGATransferred := Nat × Nat × Nat × Nat

/-- The `FPGATransferred.Number`: `return bytesToUint32(f)`. -/
def FPGATransferred.Number (f : FPGATransferred) : Nat := bytesToUint32 f

/-- The `FPGAStatus` value object, decoded from the 9-byte FPGA status buffer. -/
structure FPGAStatus where
  fpgaConfigured : FPGAConfigured
  fpgaChecksum : Nat
  fpgaTransferred : FPGATransferred
  fpgaInit : Nat
  fpgaResult : Nat
  fpgaSwapped : Nat
deriving DecidableEq

/-- Construction of `FPGAStatus` from the 9-byte buffer, as performed after
the length check in the `FPGAStatus` method:
`FPGAConfigured(b[0]), FPGAChecksum(b[1]), FPGATransferred(b[2..5]),
FPGAInit(b[6]), FPGAResult(b[7]), FPGASwapped(b[8])`. -/
def decodeFPGAStatus (b : List Nat) : FPGAStatus :=
  { fpgaConfigured := b.getD 0 0
    fpgaChecksum := b.getD 1 0
    fpgaTransferred := (b.getD 2 0, b.getD 3 0, b.getD 4 0, b.getD 5 0)
    fpgaInit := b.getD 6 0
    fpgaResult := b.getD 7 0
    fpgaSwapped := b.getD 8 0 }

/-! ### Helper lemmas on the bitwise primitives -/

theorem lor_shiftLeft_eq_add {a : Nat} (b k : Nat) (h : a < 2 ^ k) :
    a ||| (b <<< k) = a + b * 2 ^ k := by
  rw [Nat.shiftLeft_eq, Nat.lor_comm, mul_comm]
  rw [← Nat.mul_add_lt_is_or h b]
  omega

theorem bytesToUint16_eq (b0 b1 : Nat) (h0 : b0 < 256) :
    bytesToUint16 (b0, b1) = b0 + 256 * b1 := by
  have := lor_shiftLeft_eq_add (a := b0) b1 8 (by omega)
  simp only [bytesToUint16, Nat.shiftLeft_zero] at *
  omega

theorem bytesToUint32_eq (b0 b1 b2 b3 : Nat) (h0 : b0 < 256) (h1 : b1 < 256)
    (h2 : b2 < 256) :
    bytesToUint32 (b0, b1, b2, b3) = b0 + 2 ^ 8 * b1 + 2 ^ 16 * b2 + 2 ^ 24 * b3 := by
  have e1 := lor_shiftLeft_eq_add (a := b0) b1 8 (by omega)
  have h01 : b0 + b1 * 2 ^ 8 < 2 ^ 16 := by omega
  have e2 := lor_shiftLeft_eq_add (a := b0 + b1 * 2 ^ 8) b2 16 h01
  have h012 : b0 + b1 * 2 ^ 8 + b2 * 2 ^ 16 < 2 ^ 24 := by omega
  have e3 := lor_shiftLeft_eq_add (a := b0 + b1 * 2 ^ 8 + b2 * 2 ^ 16) b3 24 h012
  simp only [bytesToUint32, Nat.shiftLeft_zero]
  rw [e1, e2, e3]
  ring

theorem and_top_bit_iff (z : Nat) (hz : z < 65536) :
    (z &&& 0x8000 ≠ 0) ↔ 2 ^ 15 ≤ z := by
  have h15 : (0x8000 : Nat) = 2 ^ 15 := by norm_num
  rw [show z &&& 0x8000 = (z.testBit 15).toNat * 2 ^ 15 by rw [← Nat.and_two_pow, h15],
    Nat.testBit_to_div_mod]
  by_cases hd : z / 2 ^ 15 % 2 = 1 <;> simp [hd] <;> omega

theorem and_low_bits (z : Nat) : z &&& 0x7fff = z % 2 ^ 15 := by
  have h : (0x7fff : Nat) = 2 ^ 15 - 1 := by norm_num
  rw [h, Nat.and_pow_two_sub_one_eq_mod]

/-- Arithmetic characterisation of the 64-bit flash sector-size decoder. -/
theorem number64_eq (b0 b1 : Nat) (h0 : b0 < 256) (h1 : b1 < 256) :
    FlashSector.Number64 (b0, b1) =
      if 2 ^ 15 ≤ b0 + 256 * b1 then 2 ^ ((b0 + 256 * b1) % 2 ^ 15) % 2 ^ 64
      else b0 + 256 * b1 := by
  have hb : bytesToUint16 (b0, b1) = b0 + 256 * b1 := bytesToUint16_eq b0 b1 h0
  have hlt : b0 + 256 * b1 < 65536 := by omega
  have hiff := and_top_bit_iff (b0 + 256 * b1) hlt
  simp only [FlashSector.Number64]
  rw [hb, and_low_bits, Nat.one_shiftLeft]
  by_cases hc : 2 ^ 15 ≤ b0 + 256 * b1
  · rw [if_pos (hiff.mpr hc), if_pos hc]
  · rw [if_neg (fun h => hc (hiff.mp h)), if_neg hc]

/-- Arithmetic characterisation of the 16-bit flash sector-size decoder. -/
theorem number16_eq (b0 b1 : Nat) (h0 : b0 < 256) (h1 : b1 < 256) :
    FlashSector.Number16 (b0, b1) =
      if 2 ^ 15 ≤ b0 + 256 * b1 then 2 ^ ((b0 + 256 * b1) % 2 ^ 15) % 2 ^ 16
      else b0 + 256 * b1 := by
  have hb : bytesToUint16 (b0, b1) = b0 + 256 * b1 := bytesToUint16_eq b0 b1 h0
  have hlt : b0 + 256 * b1 < 65536 := by omega
  have hiff := and_top_bit_iff (b0 + 256 * b1) hlt
  simp only [FlashSector.Number16]
  rw [hb, and_low_bits, Nat.one_shiftLeft]
  by_cases hc : 2 ^ 15 ≤ b0 + 256 * b1
  · rw [if_pos (hiff.mpr hc), if_pos hc]
  · rw [if_neg (fun h => hc (hiff.mp h)), if_neg hc]

/-! ### Claim theorems: flash sector decoding (C2, C10) -/

/-- C2 counterexample: the field `0x8040` has its top bit set and low 15 bits
equal to 64, yet the 64-bit `FlashSector.Number` variant decodes it to 0, not
to `2 ^ 64` as the claim states for every field. -/
theorem flashSector_pow_claim_false :
    FlashSector.Number64 (0x40, 0x80) = 0 ∧
    bytesToUint16 (0x40, 0x80) % 2 ^ 15 = 64 ∧
    bytesToUint16 (0x40, 0x80) &&& 0x8000 ≠ 0 ∧
    (2 : Nat) ^ 64 ≠ 0 := by
  refine ⟨by decide, by decide, by decide, by positivity⟩

/-- C2 (amended): for every 2-byte flash sector-size field, the 64-bit
`FlashSector.Number` variant decodes it as follows: if the top bit of the
16-bit little-endian value is set, the result is `2 ^ (low 15 bits)` reduced
modulo `2 ^ 64` (hence the exact power of two whenever the exponent is at most
63); otherwise the low 15 bits are taken literally.  In particular field
`0x800C` decodes to 4096 and field `0x1000` decodes to 4096. -/
theorem flashSector_number_spec (b0 b1 : Nat) (h0 : b0 < 256) (h1 : b1 < 256) :
    FlashSector.Number64 (b0, b1) =
      (if 2 ^ 15 ≤ b0 + 256 * b1 then 2 ^ ((b0 + 256 * b1) % 2 ^ 15) % 2 ^ 64
       else b0 + 256 * b1) ∧
    (2 ^ 15 ≤ b0 + 256 * b1 → (b0 + 256 * b1) % 2 ^ 15 ≤ 63 →
      FlashSector.Number64 (b0, b1) = 2 ^ ((b0 + 256 * b1) % 2 ^ 15)) ∧
    FlashSector.Number64 (0x0C, 0x80) = 4096 ∧
    FlashSector.Number64 (0x00, 0x10) = 4096 := by
  refine ⟨number64_eq b0 b1 h0 h1, fun hc he => ?_, by decide, by decide⟩
  rw [number64_eq b0 b1 h0 h1, if_pos hc, Nat.mod_eq_of_lt]
  calc 2 ^ ((b0 + 256 * b1) % 2 ^ 15) ≤ 2 ^ 63 := Nat.pow_le_pow_right (by norm_num) he
    _ < 2 ^ 64 := by norm_num

/-- C2 witness at field `0x800C`, all hypotheses discharged. -/
theorem flashSector_number_spec_witness :
    FlashSector.Number64 (0x0C, 0x80) =
      (if 2 ^ 15 ≤ 0x0C + 256 * 0x80 then 2 ^ ((0x0C + 256 * 0x80) % 2 ^ 15) % 2 ^ 64
       else 0x0C + 256 * 0x80) ∧
    FlashSector.Number64 (0x0C, 0x80) = 2 ^ ((0x0C + 256 * 0x80) % 2 ^ 15) ∧
    FlashSector.Number64 (0x0C, 0x80) = 4096 ∧
    FlashSector.Number64 (0x00, 0x10) = 4096 :=
  let h := flashSector_number_spec 0x0C 0x80 (by norm_num) (by norm_num)
  ⟨h.1, h.2.1 (by decide) (by decide), h.2.2.1, h.2.2.2⟩

/-- C10: in the 16-bit `FlashSector.Number` variant, a field with the top bit
set decodes to `2 ^ (low 15 bits)` reduced modulo `2 ^ 16` (so exponents of 16
or more collapse to 0; field `0x8010` decodes to 0), the variant can never
return a value of 65536 or more, while the 64-bit variant decodes the same
fields faithfully whenever the exponent is at most 63. -/
theorem flashSector16_truncates (b0 b1 : Nat) (h0 : b0 < 256) (h1 : b1 < 256) :
    (2 ^ 15 ≤ b0 + 256 * b1 →
      FlashSector.Number16 (b0, b1) = 2 ^ ((b0 + 256 * b1) % 2 ^ 15) % 2 ^ 16) ∧
    (2 ^ 15 ≤ b0 + 256 * b1 → 16 ≤ (b0 + 256 * b1) % 2 ^ 15 →
      FlashSector.Number16 (b0, b1) = 0) ∧
    FlashSector.Number16 (b0, b1) < 65536 ∧
    FlashSector.Number16 (0x10, 0x80) = 0 ∧
    (2 ^ 15 ≤ b0 + 256 * b1 → (b0 + 256 * b1) % 2 ^ 15 ≤ 63 →
      FlashSector.Number64 (b0, b1) = 2 ^ ((b0 + 256 * b1) % 2 ^ 15)) := by
  have he := number16_eq b0 b1 h0 h1
  refine ⟨fun hc => by rw [he, if_pos hc], fun hc h16 => ?_, ?_, by decide, fun hc he63 => ?_⟩
  · rw [he, if_pos hc]
    exact Nat.mod_eq_zero_of_dvd (pow_dvd_pow 2 h16)
  · rw [he]
    by_cases hc : 2 ^ 15 ≤ b0 + 256 * b1
    · rw [if_pos hc]
      exact Nat.mod_lt _ (by norm_num)
    · rw [if_neg hc]
      omega
  · rw [number64_eq b0 b1 h0 h1, if_pos hc, Nat.mod_eq_of_lt]
    calc 2 ^ ((b0 + 256 * b1) % 2 ^ 15) ≤ 2 ^ 63 := Nat.pow_le_pow_right (by norm_num) he63
      _ < 2 ^ 64 := by norm_num

/-- C10 witness at field `0x8010` (exponent 16), all hypotheses
discharged. -/
theorem flashSector16_truncates_witness :
    FlashSector.Number16 (0x10, 0x80) = 0 ∧
    FlashSector.Number16 (0x10, 0x80) < 65536 :=
  let h := flashSector16_truncates 0x10 0x80 (by norm_num) (by norm_num)
  ⟨h.2.1 (by decide) (by decide), h.2.2.1⟩

/-! ### Claim theorems: FPGA configured-flag polarity (C7) -/

/-- C7: the two historical variants of `FPGAConfigured.Bool` are not
extensionally equal: one returns true exactly on byte 0, the other exactly on
byte 1, so they return opposite booleans on the bytes 0 and 1. -/
theorem fpgaConfigured_polarity_disagrees :
    FPGAConfigured.BoolV1 ≠ FPGAConfigured.BoolV2 ∧
    FPGAConfigured.BoolV1 0 = true ∧ FPGAConfigured.BoolV2 0 = false ∧
    FPGAConfigured.BoolV1 1 = false ∧ FPGAConfigured.BoolV2 1 = true := by
  refine ⟨fun h => ?_, rfl, rfl, rfl, rfl⟩
  have h0 := congrFun h 0
  simp [FPGAConfigured.BoolV1, FPGAConfigured.BoolV2] at h0

/-! ### Claim theorems: little-endian decoding (C8) -/

/-- C8: the 16-bit decoder computes `b0 + 256 * b1`, the 32-bit decoder
computes `b0 + 2^8*b1 + 2^16*b2 + 2^24*b3`, and a 9-byte FPGA status whose
transferred-bytes field is `{0x00, 0x00, 0x01, 0x00}` decodes to a transferred
count of 65536. -/
theorem littleEndian_decoders (b0 b1 b2 b3 : Nat) (h0 : b0 < 256) (h1 : b1 < 256)
    (h2 : b2 < 256) :
    bytesToUint16 (b0, b1) = b0 + 256 * b1 ∧
    bytesToUint32 (b0, b1, b2, b3) = b0 + 2 ^ 8 * b1 + 2 ^ 16 * b2 + 2 ^ 24 * b3 ∧
    ((decodeFPGAStatus [b0, b1, 0, 0, 1, 0, b2, b3, b0]).fpgaTransferred).Number
      = 65536 := by
  exact ⟨bytesToUint16_eq b0 b1 h0, bytesToUint32_eq b0 b1 b2 b3 h0 h1 h2,
    by simp [decodeFPGAStatus, FPGATransferred.Number, bytesToUint32]⟩

/-- C8 witness with bytes 7, 2, 3, 4. -/
theorem littleEndian_decoders_witness :
    bytesToUint16 (7, 2) = 7 + 256 * 2 ∧
    bytesToUint32 (7, 2, 3, 4) = 7 + 2 ^ 8 * 2 + 2 ^ 16 * 3 + 2 ^ 24 * 4 ∧
    ((decodeFPGAStatus [7, 2, 0, 0, 1, 0, 3, 4, 7]).fpgaTransferred).Number
      = 65536 :=
  littleEndian_decoders 7 2 3 4 (by norm_num) (by norm_num) (by norm_num)

/-! ### Descriptor codec -/

/-- The `DescriptorCapability` is a 6-byte field (`[6]uint8`). -/
abbrev DescriptorCapability := List Nat

/-- The `DescriptorCapability.cap`: capability `i.j` is supported iff
`z[i] & (1 << j) != 0`. -/
def DescriptorCapability.cap (d : DescriptorCapability) (i j : Nat) : Bool :=
  d.getD i 0 &&& (1 <<< j) != 0

/-- The `FPGAConfiguration`: basic FPGA configuration support is capability 0.1. -/
def DescriptorCapability.FPGAConfiguration (d : DescriptorCapability) : Bool := d.cap 0 1

/-- The `FX3Firmware`: FX3 firmware support is capability 1.2. -/
def DescriptorCapability.FX3Firmware (d : DescriptorCapability) : Bool := d.cap 1 2

/-- The `DefaultFirmware`: default firmware interface support is capability 1.4. -/
def DescriptorCapability.DefaultFirmware (d : DescriptorCapability) : Bool := d.cap 1 4

/-- The `FlashMemory`: flash memory support is capability 0.2. -/
def DescriptorCapability.FlashMemory (d : DescriptorCapability) : Bool := d.cap 0 2

/-- The ZTEX device descriptor value object (`DescriptorConfig`), with each
field holding the raw bytes sliced from the 40-byte buffer. -/
structure DescriptorConfig where
  descriptorSize : Nat
  descriptorVersion : Nat
  descriptorMagic : List Nat
  descriptorProduct : List Nat
  descriptorFirmware : Nat
  descriptorInterface : Nat
  descriptorCapability : DescriptorCapability
  descriptorModule : List Nat
  descriptorSerial : List Nat
deriving DecidableEq

/-- Failure modes of `readDescriptorConfig`, mirroring the three error
returns of the source (wrong byte count, wrong declared size, wrong declared
version); each carries the value the source reports.  The version error
carries `b[0]`, exactly as the source formats it. -/
inductive DescriptorError where
  | badLength : Nat → DescriptorError
  | badSize : Nat → DescriptorError
  | badVersion : Nat → DescriptorError
deriving DecidableEq

/-- The `DescriptorConfig` literal built by `readDescriptorConfig` once the
three checks pass: the buffer sliced into fixed-width fields at fixed
offsets. -/
def sliceDescriptorConfig (b : List Nat) : DescriptorConfig :=
    { descriptorSize := b.getD 0 0
      descriptorVersion := b.getD 1 0
      descriptorMagic := [b.getD 2 0, b.getD 3 0, b.getD 4 0, b.getD 5 0]
      descriptorProduct := [b.getD 6 0, b.getD 7 0, b.getD 8 0, b.getD 9 0]
      descriptorFirmware := b.getD 10 0
      descriptorInterface := b.getD 11 0
      descriptorCapability :=
        [b.getD 12 0, b.getD 13 0, b.getD 14 0, b.getD 15 0, b.getD 16 0, b.getD 17 0]
      descriptorModule :=
        [b.getD 18 0, b.getD 19 0, b.getD 20 0, b.getD 21 0, b.getD 22 0, b.getD 23 0,
         b.getD 24 0, b.getD 25 0, b.getD 26 0, b.getD 27 0, b.getD 28 0, b.getD 29 0]
      descriptorSerial :=
        [b.getD 30 0, b.getD 31 0, b.getD 32 0, b.getD 33 0, b.getD 34 0, b.getD 35 0,
         b.getD 36 0, b.getD 37 0, b.getD 38 0, b.getD 39 0] }

/-- The `readDescriptorConfig`: checks, in order, that 40 bytes were returned,
that `b[0] == 40` and that `b[1] == 1`, then slices the buffer into the
`DescriptorConfig` fields at fixed offsets. -/
def readDescriptorConfig (b : List Nat) : Except DescriptorError DescriptorConfig :=
  if b.length ≠ 40 then .error (.badLength b.length)
  else if b.getD 0 0 ≠ 40 then .error (.badSize (b.getD 0 0))
  else if b.getD 1 0 ≠ 1 then .error (.badVersion (b.getD 0 0))
  else .ok (sliceDescriptorConfig b)

/-- Modelled from the spec: concatenation of the raw `DescriptorConfig`
fields in layout order (size, version, magic, product, firmware, interface,
capability, module, serial), the re-encoding direction of the round-trip
property.  The source has no encoder; the layout order is that of
`readDescriptorConfig` and of the `DescriptorConfig` struct. -/
def encodeDescriptorConfig (d : DescriptorConfig) : List Nat :=
  [d.descriptorSize, d.descriptorVersion] ++ d.descriptorMagic ++ d.descriptorProduct
    ++ [d.descriptorFirmware, d.descriptorInterface] ++ d.descriptorCapability
    ++ d.descriptorModule ++ d.descriptorSerial

theorem eq_getD_list_of_length_40 (b : List Nat) (h : b.length = 40) :
    b = [b.getD 0 0, b.getD 1 0, b.getD 2 0, b.getD 3 0, b.getD 4 0, b.getD 5 0,
      b.getD 6 0, b.getD 7 0, b.getD 8 0, b.getD 9 0, b.getD 10 0, b.getD 11 0,
      b.getD 12 0, b.getD 13 0, b.getD 14 0, b.getD 15 0, b.getD 16 0, b.getD 17 0,
      b.getD 18 0, b.getD 19 0, b.getD 20 0, b.getD 21 0, b.getD 22 0, b.getD 23 0,
      b.getD 24 0, b.getD 25 0, b.getD 26 0, b.getD 27 0, b.getD 28 0, b.getD 29 0,
      b.getD 30 0, b.getD 31 0, b.getD 32 0, b.getD 33 0, b.getD 34 0, b.getD 35 0,
      b.getD 36 0, b.getD 37 0, b.getD 38 0, b.getD 39 0] := by
  rcases b with _ | ⟨x0, b⟩
  · simp at h
  rcases b with _ | ⟨x1, b⟩
  · simp at h
  rcases b with _ | ⟨x2, b⟩
  · simp at h
  rcases b with _ | ⟨x3, b⟩
  · simp at h
  rcases b with _ | ⟨x4, b⟩
  · simp at h
  rcases b with _ | ⟨x5, b⟩
  · simp at h
  rcases b with _ | ⟨x6, b⟩
  · simp at h
  rcases b with _ | ⟨x7, b⟩
  · simp at h
  rcases b with _ | ⟨x8, b⟩
  · simp at h
  rcases b with _ | ⟨x9, b⟩
  · simp at h
  rcases b with _ | ⟨x10, b⟩
  · simp at h
  rcases b with _ | ⟨x11, b⟩
  · simp at h
  rcases b with _ | ⟨x12, b⟩
  · simp at h
  rcases b with _ | ⟨x13, b⟩
  · simp at h
  rcases b with _ | ⟨x14, b⟩
  · simp at h
  rcases b with _ | ⟨x15, b⟩
  · simp at h
  rcases b with _ | ⟨x16, b⟩
  · simp at h
  rcases b with _ | ⟨x17, b⟩
  · simp at h
  rcases b with _ | ⟨x18, b⟩
  · simp at h
  rcases b with _ | ⟨x19, b⟩
  · simp at h
  rcases b with _ | ⟨x20, b⟩
  · simp at h
  rcases b with _ | ⟨x21, b⟩
  · simp at h
  rcases b with _ | ⟨x22, b⟩
  · simp at h
  rcases b with _ | ⟨x23, b⟩
  · simp at h
  rcases b with _ | ⟨x24, b⟩
  · simp at h
  rcases b with _ | ⟨x25, b⟩
  · simp at h
  rcases b with _ | ⟨x26, b⟩
  · simp at h
  rcases b with _ | ⟨x27, b⟩
  · simp at h
  rcases b with _ | ⟨x28, b⟩
  · simp at h
  rcases b with _ | ⟨x29, b⟩
  · simp at h
  rcases b with _ | ⟨x30, b⟩
  · simp at h
  rcases b with _ | ⟨x31, b⟩
  · simp at h
  rcases b with _ | ⟨x32, b⟩
  · simp at h
  rcases b with _ | ⟨x33, b⟩
  · simp at h
  rcases b with _ | ⟨x34, b⟩
  · simp at h
  rcases b with _ | ⟨x35, b⟩
  · simp at h
  rcases b with _ | ⟨x36, b⟩
  · simp at h
  rcases b with _ | ⟨x37, b⟩
  · simp at h
  rcases b with _ | ⟨x38, b⟩
  · simp at h
  rcases b with _ | ⟨x39, b⟩
  · simp at h
  rcases b with _ | ⟨x40, b⟩
  · rfl
  · simp only [List.length_cons] at h
    omega

/-- C1: a 40-byte descriptor buffer with `b[0] = 40` and `b[1] = 1` decodes
successfully, and concatenating the raw fields of the decoded
`DescriptorConfig` in layout order reproduces the original 40 bytes. -/
theorem descriptor_roundtrip (b : List Nat) (hlen : b.length = 40)
    (h0 : b.getD 0 0 = 40) (h1 : b.getD 1 0 = 1) :
    ∃ d, readDescriptorConfig b = .ok d ∧ encodeDescriptorConfig d = b := by
  refine ⟨sliceDescriptorConfig b, ?_, ?_⟩
  · simp only [readDescriptorConfig]
    rw [if_neg (by omega), if_neg (by omega), if_neg (by omega)]
  · exact (eq_getD_list_of_length_40 b hlen).symm

/-- C1 witness: a concrete valid 40-byte buffer round-trips. -/
theorem descriptor_roundtrip_witness :
    ∃ d, readDescriptorConfig
        (40 :: 1 :: List.range 38) = .ok d ∧
      encodeDescriptorConfig d = 40 :: 1 :: List.range 38 :=
  descriptor_roundtrip (40 :: 1 :: List.range 38) (by simp) (by decide) (by decide)

/-- C4: descriptor validation happens in order: a buffer whose length is not
40 fails with the length error; a 40-byte buffer whose first byte is not 40
fails with the size error; a 40-byte buffer with first byte 40 whose second
byte is not 1 fails with the version error; and a buffer passing all three
checks decodes into a descriptor value. -/
theorem descriptor_validation_order (b : List Nat) :
    (b.length ≠ 40 → readDescriptorConfig b = .error (.badLength b.length)) ∧
    (b.length = 40 → b.getD 0 0 ≠ 40 →
      readDescriptorConfig b = .error (.badSize (b.getD 0 0))) ∧
    (b.length = 40 → b.getD 0 0 = 40 → b.getD 1 0 ≠ 1 →
      readDescriptorConfig b = .error (.badVersion (b.getD 0 0))) ∧
    (b.length = 40 → b.getD 0 0 = 40 → b.getD 1 0 = 1 →
      ∃ d, readDescriptorConfig b = .ok d) := by
  refine ⟨fun h => ?_, fun hl h => ?_, fun hl h0 h => ?_, fun hl h0 h1 => ?_⟩
  · simp only [readDescriptorConfig]
    rw [if_pos h]
  · simp only [readDescriptorConfig]
    rw [if_neg (by omega), if_pos h]
  · simp only [readDescriptorConfig]
    rw [if_neg (by omega), if_neg (by omega), if_pos h]
  · refine ⟨sliceDescriptorConfig b, ?_⟩
    simp only [readDescriptorConfig]
    rw [if_neg (by omega), if_neg (by omega), if_neg (by omega)]

/-- C4 witness: the three failure modes and the success mode at concrete
buffers. -/
theorem descriptor_validation_order_witness :
    readDescriptorConfig [40, 1] = .error (.badLength 2) ∧
    readDescriptorConfig (39 :: 1 :: List.range 38) = .error (.badSize 39) ∧
    readDescriptorConfig (40 :: 7 :: List.range 38) = .error (.badVersion 40) ∧
    ∃ d, readDescriptorConfig (40 :: 1 :: List.range 38) = .ok d := by
  refine ⟨?_, ?_, ?_, ?_⟩
  · exact (descriptor_validation_order [40, 1]).1 (by simp)
  · exact (descriptor_validation_order (39 :: 1 :: List.range 38)).2.1 (by simp) (by decide)
  · exact (descriptor_validation_order (40 :: 7 :: List.range 38)).2.2.1 (by simp)
      (by decide) (by decide)
  · exact (descriptor_validation_order (40 :: 1 :: List.range 38)).2.2.2 (by simp)
      (by decide) (by decide)

/-! ### Board / FPGA / RAM / bitstream configuration codec -/

/-- The `BoardVariant` is a 2-byte field (`[2]byte`). -/
abbrev BoardVariant := Nat × Nat

/-- The `BoardVariant.Bytes`: the variant bytes truncated at the first zero byte
(`b[0] == 0` gives nothing, `b[1] == 0` gives one byte, otherwise both). -/
def BoardVariant.Bytes (b : BoardVariant) : List Nat :=
  if b.1 = 0 then [] else if b.2 = 0 then [b.1] else [b.1, b.2]

/-- The `String()` method of `BoardVariant`: the truncated bytes read as
text (`string(b.Bytes())`), modelled by mapping the bytes to characters. -/
def BoardVariant.render (b : BoardVariant) : String :=
  String.mk (List.map Char.ofNat b.Bytes)

/-- The `FPGAGrade` is a 3-byte field (`[3]byte`). -/
abbrev FPGAGrade := Nat × Nat × Nat

/-- The `FPGAGrade.Bytes`: the grade bytes truncated at the first zero byte. -/
def FPGAGrade.Bytes (f : FPGAGrade) : List Nat :=
  if f.1 = 0 then []
  else if f.2.1 = 0 then [f.1]
  else if f.2.2 = 0 then [f.1, f.2.1]
  else [f.1, f.2.1, f.2.2]

/-- The `String()` method of `FPGAGrade`, modelled like
`BoardVariant.render`. -/
def FPGAGrade.render (f : FPGAGrade) : String :=
  String.mk (List.map Char.ofNat f.Bytes)

/-- The `BoardVersion`: series, number and variant of a module. -/
structure BoardVersion where
  boardSeries : Nat
  boardNumber : Nat
  boardVariant : BoardVariant
deriving DecidableEq

/-- The `BoardConfig`: board type plus version. -/
structure BoardConfig where
  boardType : Nat
  boardVersion : BoardVersion
deriving DecidableEq

/-- The `FPGAConfig`: FPGA type (2 bytes), package and grade. -/
structure FPGAConfig where
  fpgaType : Nat × Nat
  fpgaPackage : Nat
  fpgaGrade : FPGAGrade
deriving DecidableEq

/-- The `RAMConfig`: RAM size and type bytes. -/
structure RAMConfig where
  ramSize : Nat
  ramType : Nat
deriving DecidableEq

/-- The `BitstreamConfig`: three 2-byte bitstream layout fields. -/
structure BitstreamConfig where
  bitstreamSize : Nat × Nat
  bitstreamCapacity : Nat × Nat
  bitstreamStart : Nat × Nat
deriving DecidableEq

/-- The configuration fields of a `Device` touched by the two read methods. -/
structure DeviceState where
  descriptorConfig : DescriptorConfig
  boardConfig : BoardConfig
  fpgaConfig : FPGAConfig
  ramConfig : RAMConfig
  bitstreamConfig : BitstreamConfig
deriving DecidableEq

/-- Failure modes of `readDeviceConfig`: wrong byte count, or wrong 3-byte
signature; the signature error carries the three observed bytes, as the
source reports `b[:3]`. -/
inductive ConfigError where
  | badLength : Nat → ConfigError
  | signatureMismatch : Nat → Nat → Nat → ConfigError
deriving DecidableEq

/-- The `readDeviceConfig` as a state transformer on the device: the Go method
mutates the device only after both checks pass, so on failure it returns the
device unchanged together with the error; on success it overwrites the four
configuration fields with the values sliced from the 128-byte buffer
(ASCII `C` = 67, `D` = 68, `0` = 48). -/
def readDeviceConfig (d : DeviceState) (b : List Nat) : DeviceState × Option ConfigError :=
  if b.length ≠ 128 then (d, some (.badLength b.length))
  else if b.getD 0 0 ≠ 67 ∨ b.getD 1 0 ≠ 68 ∨ b.getD 2 0 ≠ 48 then
    (d, some (.signatureMismatch (b.getD 0 0) (b.getD 1 0) (b.getD 2 0)))
  else
    ({ d with
        boardConfig :=
          { boardType := b.getD 3 0
            boardVersion :=
              { boardSeries := b.getD 4 0
                boardNumber := b.getD 5 0
                boardVariant := (b.getD 6 0, b.getD 7 0) } }
        fpgaConfig :=
          { fpgaType := (b.getD 8 0, b.getD 9 0)
            fpgaPackage := b.getD 10 0
            fpgaGrade := (b.getD 11 0, b.getD 12 0, b.getD 13 0) }
        ramConfig := { ramSize := b.getD 14 0, ramType := b.getD 15 0 }
        bitstreamConfig :=
          { bitstreamSize := (b.getD 26 0, b.getD 27 0)
            bitstreamCapacity := (b.getD 28 0, b.getD 29 0)
            bitstreamStart := (b.getD 30 0, b.getD 31 0) } }, none)

/-- An all-zero device state, used as a concrete starting point. -/
def deviceZero : DeviceState :=
  { descriptorConfig := sliceDescriptorConfig []
    boardConfig :=
      { boardType := 0
        boardVersion := { boardSeries := 0, boardNumber := 0, boardVariant := (0, 0) } }
    fpgaConfig := { fpgaType := (0, 0), fpgaPackage := 0, fpgaGrade := (0, 0, 0) }
    ramConfig := { ramSize := 0, ramType := 0 }
    bitstreamConfig :=
      { bitstreamSize := (0, 0), bitstreamCapacity := (0, 0), bitstreamStart := (0, 0) } }

/-- C5: a 128-byte configuration buffer whose first three bytes are not
ASCII `C`, `D`, `0` makes `readDeviceConfig` fail with a signature-mismatch
error reporting the three observed bytes, and leaves the device state
completely unchanged (no configuration field is populated). -/
theorem deviceConfig_signature_mismatch (d : DeviceState) (b : List Nat)
    (hlen : b.length = 128)
    (hsig : ¬(b.getD 0 0 = 67 ∧ b.getD 1 0 = 68 ∧ b.getD 2 0 = 48)) :
    readDeviceConfig d b =
      (d, some (.signatureMismatch (b.getD 0 0) (b.getD 1 0) (b.getD 2 0))) := by
  simp only [readDeviceConfig]
  rw [if_neg (by omega), if_pos (by omega)]

/-- C5 witness: an all-zero 128-byte buffer fails with the observed bytes
0, 0, 0 and the state is returned unchanged. -/
theorem deviceConfig_signature_mismatch_witness :
    readDeviceConfig deviceZero (List.replicate 128 0) =
      (deviceZero, some (.signatureMismatch 0 0 0)) := by
  have h := deviceConfig_signature_mismatch deviceZero (List.replicate 128 0)
    (by simp) (by decide)
  exact h

/-- C9: rendering a board variant (and an FPGA grade) yields exactly the
prefix of the raw bytes up to but excluding the first zero byte; the
concrete variants render as the empty text, single-character text and
two-character text; and a successful `readDeviceConfig` stores the raw
untruncated bytes in the decoded value. -/
theorem variant_grade_render (v0 v1 g0 g1 g2 : Nat) :
    BoardVariant.Bytes (v0, v1) = [v0, v1].takeWhile (fun x => x != 0) ∧
    FPGAGrade.Bytes (g0, g1, g2) = [g0, g1, g2].takeWhile (fun x => x != 0) ∧
    BoardVariant.render (0, 0) = "" ∧
    BoardVariant.render (0x62, 0) = "b" ∧
    BoardVariant.render (0x62, 0x31) = "b1" ∧
    (∀ d b, (readDeviceConfig d b).2 = none →
      (readDeviceConfig d b).1.boardConfig.boardVersion.boardVariant
          = (b.getD 6 0, b.getD 7 0) ∧
        (readDeviceConfig d b).1.fpgaConfig.fpgaGrade
          = (b.getD 11 0, b.getD 12 0, b.getD 13 0)) := by
  refine ⟨?_, ?_, by decide, by decide, by decide, ?_⟩
  · by_cases h0 : v0 = 0 <;> by_cases h1 : v1 = 0 <;>
      simp [BoardVariant.Bytes, List.takeWhile_cons, h0, h1]
  · by_cases h0 : g0 = 0 <;> by_cases h1 : g1 = 0 <;> by_cases h2 : g2 = 0 <;>
      simp [FPGAGrade.Bytes, List.takeWhile_cons, h0, h1, h2]
  · intro d b h
    simp only [readDeviceConfig] at h ⊢
    by_cases hl : b.length ≠ 128
    · rw [if_pos hl] at h
      simp at h
    · rw [if_neg hl] at h ⊢
      by_cases hs : b.getD 0 0 ≠ 67 ∨ b.getD 1 0 ≠ 68 ∨ b.getD 2 0 ≠ 48
      · rw [if_pos hs] at h
        simp at h
      · rw [if_neg hs] at h ⊢
        exact ⟨rfl, rfl⟩

/-- A concrete 128-byte buffer with a valid `CD0` signature. -/
def cd0Buffer : List Nat := 67 :: 68 :: 48 :: List.replicate 125 7

set_option maxRecDepth 8192 in
/-- C9 witness: truncation at concrete bytes and raw-byte preservation on a
concrete successful decode. -/
theorem variant_grade_render_witness :
    BoardVariant.Bytes (0x62, 0x31) = [0x62, 0x31].takeWhile (fun x => x != 0) ∧
    BoardVariant.render (0x62, 0x31) = "b1" ∧
    (readDeviceConfig deviceZero cd0Buffer).1.boardConfig.boardVersion.boardVariant
      = (cd0Buffer.getD 6 0, cd0Buffer.getD 7 0) := by
  have h := variant_grade_render 0x62 0x31 0 0 0
  exact ⟨h.1, h.2.2.2.2.1,
    (h.2.2.2.2.2 deviceZero cd0Buffer (by decide)).1⟩

/-! ### Capability-gated command layer -/

/-- A control-transfer request as issued by the command layer:
`Control(requestType, request, value, index, ...)`. -/
structure ControlRequest where
  requestType : Nat
  request : Nat
  value : Nat
  index : Nat
deriving DecidableEq

/-- The external collaborator: executes a control request and reports the
number of bytes returned, or a transport failure. -/
abbrev ControlFn := ControlRequest → Except Unit Nat

/-- Failure modes of the command layer. -/
inductive CommandError where
  | unsupportedOperation
  | transportFailure
  | unexpectedResponseLength : Nat → CommandError
deriving DecidableEq

/-- The `ResetFPGA`: fails with the unsupported-operation error unless the FPGA
configuration capability is set; otherwise issues `VC 0x31` and requires a
zero-byte response.  The second component lists the control transfers
issued. -/
def ResetFPGA (cap : DescriptorCapability) (control : ControlFn) :
    Except CommandError Unit × List ControlRequest :=
  if !cap.FPGAConfiguration then (.error .unsupportedOperation, [])
  else
    match control ⟨0x40, 0x31, 0, 0⟩ with
    | .error _ => (.error .transportFailure, [⟨0x40, 0x31, 0, 0⟩])
    | .ok nbr =>
      if nbr ≠ 0 then (.error (.unexpectedResponseLength nbr), [⟨0x40, 0x31, 0, 0⟩])
      else (.ok (), [⟨0x40, 0x31, 0, 0⟩])

/-- The `ResetFX3`: fails with the unsupported-operation error unless the FX3
firmware capability is set; otherwise issues `VC 0xA1` with value 1. -/
def ResetFX3 (cap : DescriptorCapability) (control : ControlFn) :
    Except CommandError Unit × List ControlRequest :=
  if !cap.FX3Firmware then (.error .unsupportedOperation, [])
  else
    match control ⟨0x40, 0xa1, 1, 0⟩ with
    | .error _ => (.error .transportFailure, [⟨0x40, 0xa1, 1, 0⟩])
    | .ok nbr =>
      if nbr ≠ 0 then (.error (.unexpectedResponseLength nbr), [⟨0x40, 0xa1, 1, 0⟩])
      else (.ok (), [⟨0x40, 0xa1, 1, 0⟩])

/-- The `ResetDefaultFirmware`: fails with the unsupported-operation error unless
the default firmware interface capability is set; otherwise issues
`VC 0x60`. -/
def ResetDefaultFirmware (cap : DescriptorCapability) (control : ControlFn) :
    Except CommandError Unit × List ControlRequest :=
  if !cap.DefaultFirmware then (.error .unsupportedOperation, [])
  else
    match control ⟨0x40, 0x60, 0, 0⟩ with
    | .error _ => (.error .transportFailure, [⟨0x40, 0x60, 0, 0⟩])
    | .ok nbr =>
      if nbr ≠ 0 then (.error (.unexpectedResponseLength nbr), [⟨0x40, 0x60, 0, 0⟩])
      else (.ok (), [⟨0x40, 0x60, 0, 0⟩])

/-- C6: when the relevant capability bit is 0, each reset command fails with
the unsupported-operation error and issues zero control transfers, whatever
the collaborator would have answered. -/
theorem reset_requires_capability (cap : DescriptorCapability) (control : ControlFn) :
    (cap.FPGAConfiguration = false →
      ResetFPGA cap control = (.error .unsupportedOperation, [])) ∧
    (cap.FX3Firmware = false →
      ResetFX3 cap control = (.error .unsupportedOperation, [])) ∧
    (cap.DefaultFirmware = false →
      ResetDefaultFirmware cap control = (.error .unsupportedOperation, [])) := by
  refine ⟨fun h => ?_, fun h => ?_, fun h => ?_⟩ <;>
    simp [ResetFPGA, ResetFX3, ResetDefaultFirmware, h]

/-- A collaborator that always reports a zero-byte response. -/
def controlZero : ControlFn := fun _ => .ok 0

/-- The all-zero capability set: every capability bit is 0. -/
def capNone : DescriptorCapability := [0, 0, 0, 0, 0, 0]

/-- C6 witness: with every capability bit 0, all three resets fail with the
unsupported-operation error and an empty transfer list. -/
theorem reset_requires_capability_witness :
    ResetFPGA capNone controlZero = (.error .unsupportedOperation, []) ∧
    ResetFX3 capNone controlZero = (.error .unsupportedOperation, []) ∧
    ResetDefaultFirmware capNone controlZero = (.error .unsupportedOperation, []) :=
  let h := reset_requires_capability capNone controlZero
  ⟨h.1 (by decide), h.2.1 (by decide), h.2.2 (by decide)⟩

/-! ### Exact binary-prefix formatter -/

/-- The exact binary-prefix formatter, from `util.go`: a non-zero count whose
low 30 bits are zero renders as Gi-units, else low 20 bits zero as Mi-units,
else low 10 bits zero as ki-units, else the literal decimal count; the
prefixed renderings append the literal count in parentheses (`%vGi%v (%v%v)`
and so on), with `%v` on an unsigned integer modelled by `Nat.repr`. -/
def binaryPrefix (n : Nat) (unit : String) : String :=
  if n ≠ 0 ∧ n &&& ((1 <<< 30) - 1) = 0 then
    Nat.repr (n >>> 30) ++ "Gi" ++ unit ++ " (" ++ Nat.repr n ++ unit ++ ")"
  else if n ≠ 0 ∧ n &&& ((1 <<< 20) - 1) = 0 then
    Nat.repr (n >>> 20) ++ "Mi" ++ unit ++ " (" ++ Nat.repr n ++ unit ++ ")"
  else if n ≠ 0 ∧ n &&& ((1 <<< 10) - 1) = 0 then
    Nat.repr (n >>> 10) ++ "ki" ++ unit ++ " (" ++ Nat.repr n ++ unit ++ ")"
  else Nat.repr n ++ unit

theorem mod_pow_ne_zero_of_mod_pow_ne_zero {n a b : Nat} (hab : a ≤ b)
    (h : n % 2 ^ a ≠ 0) : n % 2 ^ b ≠ 0 := by
  intro hc
  exact h (Nat.mod_eq_zero_of_dvd
    (dvd_trans (pow_dvd_pow 2 hab) (Nat.dvd_of_mod_eq_zero hc)))

/-- C3: `binaryPrefix` renders a count with the tightest exact binary
prefix.  A non-zero count divisible by `2 ^ 30` renders as Gi-units with
value `n / 2 ^ 30`; else one divisible by `2 ^ 20` as Mi-units with value
`n / 2 ^ 20`; else one divisible by `2 ^ 10` as ki-units with value
`n / 2 ^ 10`; any other count, zero included, renders as the literal decimal
count with no prefix.  Multiplying the emitted prefixed value by its scaling
factor reproduces the count exactly. -/
theorem binaryPrefix_exact (n : Nat) (u : String) :
    (n ≠ 0 → n % 2 ^ 30 = 0 →
      binaryPrefix n u
          = Nat.repr (n / 2 ^ 30) ++ "Gi" ++ u ++ " (" ++ Nat.repr n ++ u ++ ")" ∧
        n / 2 ^ 30 * 2 ^ 30 = n) ∧
    (n ≠ 0 → n % 2 ^ 30 ≠ 0 → n % 2 ^ 20 = 0 →
      binaryPrefix n u
          = Nat.repr (n / 2 ^ 20) ++ "Mi" ++ u ++ " (" ++ Nat.repr n ++ u ++ ")" ∧
        n / 2 ^ 20 * 2 ^ 20 = n) ∧
    (n ≠ 0 → n % 2 ^ 20 ≠ 0 → n % 2 ^ 10 = 0 →
      binaryPrefix n u
          = Nat.repr (n / 2 ^ 10) ++ "ki" ++ u ++ " (" ++ Nat.repr n ++ u ++ ")" ∧
        n / 2 ^ 10 * 2 ^ 10 = n) ∧
    (n = 0 ∨ n % 2 ^ 10 ≠ 0 → binaryPrefix n u = Nat.repr n ++ u) := by
  have m30 : n &&& ((1 <<< 30) - 1) = n % 2 ^ 30 := by
    rw [Nat.one_shiftLeft, Nat.and_pow_two_sub_one_eq_mod]
  have m20 : n &&& ((1 <<< 20) - 1) = n % 2 ^ 20 := by
    rw [Nat.one_shiftLeft, Nat.and_pow_two_sub_one_eq_mod]
  have m10 : n &&& ((1 <<< 10) - 1) = n % 2 ^ 10 := by
    rw [Nat.one_shiftLeft, Nat.and_pow_two_sub_one_eq_mod]
  have s30 : n >>> 30 = n / 2 ^ 30 := Nat.shiftRight_eq_div_pow n 30
  have s20 : n >>> 20 = n / 2 ^ 20 := Nat.shiftRight_eq_div_pow n 20
  have s10 : n >>> 10 = n / 2 ^ 10 := Nat.shiftRight_eq_div_pow n 10
  simp only [binaryPrefix, m30, m20, m10, s30, s20, s10]
  refine ⟨fun h0 h30 => ?_, fun h0 h30 h20 => ?_, fun h0 h20 h10 => ?_, fun hd => ?_⟩
  · rw [if_pos ⟨h0, h30⟩]
    exact ⟨rfl, Nat.div_mul_cancel (Nat.dvd_of_mod_eq_zero h30)⟩
  · rw [if_neg (fun hc => h30 hc.2), if_pos ⟨h0, h20⟩]
    exact ⟨rfl, Nat.div_mul_cancel (Nat.dvd_of_mod_eq_zero h20)⟩
  · have h30 := mod_pow_ne_zero_of_mod_pow_ne_zero (by norm_num : (20:Nat) ≤ 30) h20
    rw [if_neg (fun hc => h30 hc.2), if_neg (fun hc => h20 hc.2), if_pos ⟨h0, h10⟩]
    exact ⟨rfl, Nat.div_mul_cancel (Nat.dvd_of_mod_eq_zero h10)⟩
  · rcases hd with h0 | h10
    · rw [if_neg (fun hc => hc.1 h0), if_neg (fun hc => hc.1 h0),
        if_neg (fun hc => hc.1 h0)]
    · have h20 := mod_pow_ne_zero_of_mod_pow_ne_zero (by norm_num : (10:Nat) ≤ 20) h10
      have h30 := mod_pow_ne_zero_of_mod_pow_ne_zero (by norm_num : (10:Nat) ≤ 30) h10
      rw [if_neg (fun hc => h30 hc.2), if_neg (fun hc => h20 hc.2),
        if_neg (fun hc => h10 hc.2)]

/-- C3 witness: `2 ^ 30` bytes render in Gi-units; the reconstruction
product is exact; 1536 is not divisible by `2 ^ 10` and renders literally. -/
theorem binaryPrefix_exact_witness :
    (binaryPrefix 1073741824 "B"
        = Nat.repr (1073741824 / 2 ^ 30) ++ "Gi" ++ "B" ++ " ("
            ++ Nat.repr 1073741824 ++ "B" ++ ")" ∧
      1073741824 / 2 ^ 30 * 2 ^ 30 = 1073741824) ∧
    binaryPrefix 1536 "B" = Nat.repr 1536 ++ "B" :=
  ⟨(binaryPrefix_exact 1073741824 "B").1 (by norm_num) (by norm_num),
    (binaryPrefix_exact 1536 "B").2.2.2 (by norm_num)⟩

end Ztex
